import Mathlib

/-!
Shallow embedding of the GOdelivery to-do CLI (`src/unnamed/part_000`).

The file contains two near-duplicate Go programs: one with Spanish
identifiers (`Usuario`/`Tarea`, `RepositorioUsuarioMem`, `CrearUsuario`, ...)
and one with English identifiers (`User`/`Task`, `InMemoryUserRepo`,
`CreateUser`, ...).  Both are embedded here, each from its own source text.

Modelling choices:
- A Go `map[string]V` backing store is modelled as an association list
  `List (String × V)` with `mapLookup` (the `v, ok := m[k]` read) and
  `mapInsert` (the `m[k] = v` write, replacing the entry with that key).
- Go methods that mutate a receiver and return an `error` become functions
  returning the new store paired with `Except String ...`; a `nil` error is
  `Except.ok`.
- `os.Getpid()` and friends are ambient process-identity numbers, fixed for
  the lifetime of a run; they are modelled as an explicit `ProcIdentity`
  record threaded into the id generators.
- CLI strings handled at the byte level (`limpiar` / `trim` slice off the
  final byte) are modelled as `List Char`; the Go slice expression
  `[]byte(s)[:len(s)-1]` panics when `len(s) = 0`, which is modelled by an
  `Option` result that is `none` exactly in the panicking case.
-/

set_option linter.unusedVariables false

namespace GOdelivery

/-- Read of a Go `map[string]V`: `v, ok := m[k]`. -/
def mapLookup {V : Type} (k : String) : List (String × V) → Option V
  | [] => none
  | (k1, v) :: rest => if k1 = k then some v else mapLookup k rest

/-- Write to a Go `map[string]V`: `m[k] = v` replaces any entry with key `k`. -/
def mapInsert {V : Type} (k : String) (v : V) : List (String × V) → List (String × V)
  | [] => [(k, v)]
  | (k1, v1) :: rest => if k1 = k then (k, v) :: rest else (k1, v1) :: mapInsert k v rest

/-- Ambient process-identity numbers (`os.Getpid`, `os.Getuid`, `os.Geteuid`,
`os.Getppid`, `os.Getegid`), fixed for the lifetime of one process run. -/
structure ProcIdentity where
  pid : Int
  uid : Int
  euid : Int
  ppid : Int
  egid : Int
deriving DecidableEq

/-! ## Spanish-identifier implementation -/

/-- Go `type EstadoTarea string`. -/
abbrev EstadoTarea := String

def Pendiente : EstadoTarea := "Pendiente"

def EnProgreso : EstadoTarea := "En progreso"

def Finalizada : EstadoTarea := "Finalizada"

/-- Go struct `Usuario`. -/
structure Usuario where
  ID : String
  Nombre : String
  Rol : String
deriving DecidableEq

/-- Go struct `Tarea`. -/
structure Tarea where
  ID : String
  UsuarioID : String
  Titulo : String
  Estado : EstadoTarea
deriving DecidableEq

/-- Go struct `RepositorioUsuarioMem` with its backing map `usuarios`. -/
structure RepositorioUsuarioMem where
  usuarios : List (String × Usuario)
deriving DecidableEq

/-- Go `NuevoRepositorioUsuarioMem`: fresh empty store. -/
def NuevoRepositorioUsuarioMem : RepositorioUsuarioMem :=
  { usuarios := [] }

/-- Go `(r *RepositorioUsuarioMem) Guardar`: `r.usuarios[usuario.ID] = usuario; return nil`. -/
def RepositorioUsuarioMem.Guardar (r : RepositorioUsuarioMem) (usuario : Usuario) :
    RepositorioUsuarioMem × Except String Unit :=
  ({ usuarios := mapInsert usuario.ID usuario r.usuarios }, Except.ok ())

/-- Go `(r *RepositorioUsuarioMem) BuscarPorID`. -/
def RepositorioUsuarioMem.BuscarPorID (r : RepositorioUsuarioMem) (id : String) :
    Except String Usuario :=
  match mapLookup id r.usuarios with
  | some usuario => Except.ok usuario
  | none => Except.error "usuario no encontrado"

/-- Go `(r *RepositorioUsuarioMem) Listar`: all stored users, iteration order
modelled as the list order of the store. -/
def RepositorioUsuarioMem.Listar (r : RepositorioUsuarioMem) : List Usuario :=
  r.usuarios.map Prod.snd

/-- Go struct `RepositorioTareaMem` with its backing map `tareas`. -/
structure RepositorioTareaMem where
  tareas : List (String × Tarea)
deriving DecidableEq

/-- Go `NuevoRepositorioTareaMem`: fresh empty store. -/
def NuevoRepositorioTareaMem : RepositorioTareaMem :=
  { tareas := [] }

/-- Go `(r *RepositorioTareaMem) Guardar`: `r.tareas[tarea.ID] = tarea; return nil`. -/
def RepositorioTareaMem.Guardar (r : RepositorioTareaMem) (tarea : Tarea) :
    RepositorioTareaMem × Except String Unit :=
  ({ tareas := mapInsert tarea.ID tarea r.tareas }, Except.ok ())

/-- Go `(r *RepositorioTareaMem) BuscarPorID`. -/
def RepositorioTareaMem.BuscarPorID (r : RepositorioTareaMem) (id : String) :
    Except String Tarea :=
  match mapLookup id r.tareas with
  | some tarea => Except.ok tarea
  | none => Except.error "tarea no encontrada"

/-- Go `(r *RepositorioTareaMem) ListarPorUsuario`: iterate the store and keep
the tasks whose `UsuarioID` equals the argument. -/
def RepositorioTareaMem.ListarPorUsuario (r : RepositorioTareaMem) (usuarioID : String) :
    List Tarea :=
  (r.tareas.map Prod.snd).filter (fun t => t.UsuarioID == usuarioID)

/-- Go `(r *RepositorioTareaMem) Actualizar`: fail with the not-found error if
no entry has the task's key, otherwise overwrite that entry with the task. -/
def RepositorioTareaMem.Actualizar (r : RepositorioTareaMem) (tarea : Tarea) :
    RepositorioTareaMem × Except String Unit :=
  match mapLookup tarea.ID r.tareas with
  | none => (r, Except.error "tarea no encontrada")
  | some _ => ({ tareas := mapInsert tarea.ID tarea r.tareas }, Except.ok ())

/-- Go `generarID`: decimal rendering of the sum of the five ambient
process-identity numbers. -/
def generarID (env : ProcIdentity) : String :=
  toString (env.pid + env.uid + env.euid + env.ppid + env.egid)

/-- Go use case `CrearUsuario`. -/
def CrearUsuario (env : ProcIdentity) (repo : RepositorioUsuarioMem)
    (nombre : String) (rol : String) : RepositorioUsuarioMem × Except String Usuario :=
  let id := generarID env
  let usuario : Usuario := { ID := id, Nombre := nombre, Rol := rol }
  match repo.Guardar usuario with
  | (repo2, Except.ok _) => (repo2, Except.ok usuario)
  | (repo2, Except.error e) => (repo2, Except.error e)

/-- Go use case `CrearTarea`: note that it receives only the task repository,
so it cannot (and does not) check that `usuarioID` refers to a stored user. -/
def CrearTarea (env : ProcIdentity) (repo : RepositorioTareaMem)
    (usuarioID : String) (titulo : String) : RepositorioTareaMem × Except String Tarea :=
  let id := generarID env
  let tarea : Tarea := { ID := id, UsuarioID := usuarioID, Titulo := titulo, Estado := Pendiente }
  match repo.Guardar tarea with
  | (repo2, Except.ok _) => (repo2, Except.ok tarea)
  | (repo2, Except.error e) => (repo2, Except.error e)

/-- Go use case `FinalizarTarea`: look the task up, set its state to
`Finalizada`, persist via `Actualizar`. -/
def FinalizarTarea (repo : RepositorioTareaMem) (tareaID : String) :
    RepositorioTareaMem × Except String Unit :=
  match repo.BuscarPorID tareaID with
  | Except.error e => (repo, Except.error e)
  | Except.ok tarea => repo.Actualizar { tarea with Estado := Finalizada }

/-- Go use case `ListarTareas`: delegates to `ListarPorUsuario`. -/
def ListarTareas (repo : RepositorioTareaMem) (usuarioID : String) : List Tarea :=
  repo.ListarPorUsuario usuarioID

/-- Go `limpiar`: `string([]byte(s)[:len(s)-1])`, dropping the final byte;
`none` models the slice-bounds panic on the empty string. -/
def limpiar (s : List Char) : Option (List Char) :=
  if s.length = 0 then none else some s.dropLast

/-! ## English-identifier implementation -/

/-- Go `type TaskStatus string`. -/
abbrev TaskStatus := String

def TaskPending : TaskStatus := "Pendiente"

def TaskInProgress : TaskStatus := "En progreso"

def TaskCompleted : TaskStatus := "Finalizada"

/-- Go struct `User`. -/
structure User where
  ID : String
  Name : String
  Rol : String
deriving DecidableEq

/-- Go struct `Task`. -/
structure Task where
  ID : String
  UserID : String
  Title : String
  Status : TaskStatus
deriving DecidableEq

/-- Go struct `InMemoryUserRepo` with its backing map `users`. -/
structure InMemoryUserRepo where
  users : List (String × User)
deriving DecidableEq

/-- Go `NewInMemoryUserRepo`: fresh empty store. -/
def NewInMemoryUserRepo : InMemoryUserRepo :=
  { users := [] }

/-- Go `(r *InMemoryUserRepo) Save`. -/
def InMemoryUserRepo.Save (r : InMemoryUserRepo) (user : User) :
    InMemoryUserRepo × Except String Unit :=
  ({ users := mapInsert user.ID user r.users }, Except.ok ())

/-- Go `(r *InMemoryUserRepo) FindByID`. -/
def InMemoryUserRepo.FindByID (r : InMemoryUserRepo) (id : String) :
    Except String User :=
  match mapLookup id r.users with
  | some user => Except.ok user
  | none => Except.error "usuario no encontrado"

/-- Go `(r *InMemoryUserRepo) List`. -/
def InMemoryUserRepo.List (r : InMemoryUserRepo) : List User :=
  r.users.map Prod.snd

/-- Go struct `InMemoryTaskRepo` with its backing map `tasks`. -/
structure InMemoryTaskRepo where
  tasks : List (String × Task)
deriving DecidableEq

/-- Go `NewInMemoryTaskRepo`: fresh empty store. -/
def NewInMemoryTaskRepo : InMemoryTaskRepo :=
  { tasks := [] }

/-- Go `(r *InMemoryTaskRepo) Save`. -/
def InMemoryTaskRepo.Save (r : InMemoryTaskRepo) (task : Task) :
    InMemoryTaskRepo × Except String Unit :=
  ({ tasks := mapInsert task.ID task r.tasks }, Except.ok ())

/-- Go `(r *InMemoryTaskRepo) FindByID`. -/
def InMemoryTaskRepo.FindByID (r : InMemoryTaskRepo) (id : String) :
    Except String Task :=
  match mapLookup id r.tasks with
  | some task => Except.ok task
  | none => Except.error "tarea no encontrada"

/-- Go `(r *InMemoryTaskRepo) ListByUser`. -/
def InMemoryTaskRepo.ListByUser (r : InMemoryTaskRepo) (userID : String) : List Task :=
  (r.tasks.map Prod.snd).filter (fun t => t.UserID == userID)

/-- Go `(r *InMemoryTaskRepo) Update`. -/
def InMemoryTaskRepo.Update (r : InMemoryTaskRepo) (task : Task) :
    InMemoryTaskRepo × Except String Unit :=
  match mapLookup task.ID r.tasks with
  | none => (r, Except.error "tarea no encontrada")
  | some _ => ({ tasks := mapInsert task.ID task r.tasks }, Except.ok ())

/-- Go `generateID`: same formula as the Spanish `generarID`. -/
def generateID (env : ProcIdentity) : String :=
  toString (env.pid + env.uid + env.euid + env.ppid + env.egid)

/-- Go use case `CreateUser`: note it takes only a `name` argument and never
sets the `Rol` field, which stays at Go's string zero value `""`. -/
def CreateUser (env : ProcIdentity) (repo : InMemoryUserRepo)
    (name : String) : InMemoryUserRepo × Except String User :=
  let id := generateID env
  let user : User := { ID := id, Name := name, Rol := "" }
  match repo.Save user with
  | (repo2, Except.ok _) => (repo2, Except.ok user)
  | (repo2, Except.error e) => (repo2, Except.error e)

/-- Go use case `CreateTask`: receives only the task repository, so it does
not check that `userID` refers to a stored user. -/
def CreateTask (env : ProcIdentity) (repo : InMemoryTaskRepo)
    (userID : String) (title : String) : InMemoryTaskRepo × Except String Task :=
  let id := generateID env
  let task : Task := { ID := id, UserID := userID, Title := title, Status := TaskPending }
  match repo.Save task with
  | (repo2, Except.ok _) => (repo2, Except.ok task)
  | (repo2, Except.error e) => (repo2, Except.error e)

/-- Go use case `CompleteTask`. -/
def CompleteTask (repo : InMemoryTaskRepo) (taskID : String) :
    InMemoryTaskRepo × Except String Unit :=
  match repo.FindByID taskID with
  | Except.error e => (repo, Except.error e)
  | Except.ok task => repo.Update { task with Status := TaskCompleted }

/-- Go use case `ListTasks`. -/
def ListTasks (repo : InMemoryTaskRepo) (userID : String) : List Task :=
  repo.ListByUser userID

/-- Go `trim`: byte-identical body to `limpiar`. -/
def trim (s : List Char) : Option (List Char) :=
  if s.length = 0 then none else some s.dropLast

/-! ## Lemmas about the map model -/

theorem mapLookup_mapInsert_self {V : Type} (k : String) (v : V) (r : List (String × V)) :
    mapLookup k (mapInsert k v r) = some v := by
  induction r with
  | nil => simp [mapInsert, mapLookup]
  | cons p rest ih =>
    obtain ⟨k1, v1⟩ := p
    by_cases h : k1 = k
    · simp [mapInsert, mapLookup, h]
    · simp [mapInsert, mapLookup, h, ih]

theorem mapLookup_mapInsert_ne {V : Type} (k1 k : String) (v : V) (r : List (String × V))
    (h : k1 ≠ k) : mapLookup k1 (mapInsert k v r) = mapLookup k1 r := by
  induction r with
  | nil => simp [mapInsert, mapLookup, Ne.symm h]
  | cons p rest ih =>
    obtain ⟨k2, v2⟩ := p
    by_cases h2 : k2 = k
    · subst h2
      simp [mapInsert, mapLookup, Ne.symm h]
    · by_cases h3 : k2 = k1
      · simp [mapInsert, mapLookup, h2, h3, h]
      · simp [mapInsert, mapLookup, h2, h3, ih]

theorem mapInsert_mapInsert_self {V : Type} (k : String) (v : V) (r : List (String × V)) :
    mapInsert k v (mapInsert k v r) = mapInsert k v r := by
  induction r with
  | nil => simp [mapInsert]
  | cons p rest ih =>
    obtain ⟨k1, v1⟩ := p
    by_cases h : k1 = k
    · simp [mapInsert, h]
    · simp [mapInsert, h, ih]

theorem mapLookup_eq_none_iff {V : Type} (k : String) (r : List (String × V)) :
    mapLookup k r = none ↔ ∀ v : V, (k, v) ∉ r := by
  induction r with
  | nil => simp [mapLookup]
  | cons p rest ih =>
    obtain ⟨k1, v1⟩ := p
    by_cases h : k1 = k
    · subst h
      simp only [mapLookup, if_pos rfl]
      constructor
      · intro hnone
        exact (Option.some_ne_none v1 hnone).elim
      · intro hall
        exact ((hall v1) (List.mem_cons_self _ _)).elim
    · simp only [mapLookup, if_neg h, ih, List.mem_cons]
      constructor
      · intro hall v hv
        rcases hv with hv | hv
        · exact h (congrArg Prod.fst hv).symm
        · exact hall v hv
      · intro hall v hv
        exact hall v (Or.inr hv)

theorem mapLookup_mem {V : Type} (k : String) (v : V) (r : List (String × V))
    (h : mapLookup k r = some v) : (k, v) ∈ r := by
  induction r with
  | nil => simp [mapLookup] at h
  | cons p rest ih =>
    obtain ⟨k1, v1⟩ := p
    by_cases h1 : k1 = k
    · subst h1
      simp [mapLookup] at h
      subst h
      exact List.mem_cons_self _ _
    · simp only [mapLookup, if_neg h1] at h
      exact List.mem_cons_of_mem _ (ih h)

/-! ## Claim theorems -/

/-- Claim C1: for a fixed process identity, the id generator is the constant
decimal rendering of the sum of pid, uid, euid, ppid and egid, identical in
both implementations; hence two tasks created in one run receive the same
identifier and the second save silently overwrites the first entry: looking
the shared identifier up after both creations returns the second task. -/
theorem C1_constant_id_overwrite (env : ProcIdentity) (repo : RepositorioTareaMem)
    (uid1 titulo1 uid2 titulo2 : String) :
    generarID env = toString (env.pid + env.uid + env.euid + env.ppid + env.egid)
    ∧ generateID env = generarID env
    ∧ (CrearTarea env repo uid1 titulo1).snd
        = Except.ok { ID := generarID env, UsuarioID := uid1, Titulo := titulo1, Estado := Pendiente }
    ∧ (CrearTarea env (CrearTarea env repo uid1 titulo1).fst uid2 titulo2).snd
        = Except.ok { ID := generarID env, UsuarioID := uid2, Titulo := titulo2, Estado := Pendiente }
    ∧ ((CrearTarea env (CrearTarea env repo uid1 titulo1).fst uid2 titulo2).fst).BuscarPorID
          (generarID env)
        = Except.ok { ID := generarID env, UsuarioID := uid2, Titulo := titulo2, Estado := Pendiente } := by
  refine ⟨rfl, rfl, rfl, rfl, ?_⟩
  simp [CrearTarea, RepositorioTareaMem.Guardar, RepositorioTareaMem.BuscarPorID,
    mapLookup_mapInsert_self]

/-- Claim C4: in both implementations, listing tasks by owner returns exactly
the stored tasks whose owner identifier equals the argument: a task is in the
result exactly when its owner field matches and it is stored under some key. -/
theorem C4_list_by_owner_exact (repo : RepositorioTareaMem) (usuarioID : String) (t : Tarea)
    (repoE : InMemoryTaskRepo) (userID : String) (tE : Task) :
    (t ∈ repo.ListarPorUsuario usuarioID
        ↔ t.UsuarioID = usuarioID ∧ ∃ k, (k, t) ∈ repo.tareas)
    ∧ (tE ∈ repoE.ListByUser userID
        ↔ tE.UserID = userID ∧ ∃ k, (k, tE) ∈ repoE.tasks) := by
  constructor
  · simp only [RepositorioTareaMem.ListarPorUsuario, List.mem_filter, List.mem_map,
      beq_iff_eq, Prod.exists]
    constructor
    · rintro ⟨⟨a, b, hab, hbt⟩, hmatch⟩
      subst hbt
      exact ⟨hmatch, a, hab⟩
    · rintro ⟨hmatch, a, hat⟩
      exact ⟨⟨a, t, hat, rfl⟩, hmatch⟩
  · simp only [InMemoryTaskRepo.ListByUser, List.mem_filter, List.mem_map,
      beq_iff_eq, Prod.exists]
    constructor
    · rintro ⟨⟨a, b, hab, hbt⟩, hmatch⟩
      subst hbt
      exact ⟨hmatch, a, hab⟩
    · rintro ⟨hmatch, a, hat⟩
      exact ⟨⟨a, tE, hat, rfl⟩, hmatch⟩

/-- Claim C5: saving an owner and then looking it up by its identifier
succeeds and returns an owner equal to the one saved, in both the Spanish
(`Guardar`/`BuscarPorID`) and English (`Save`/`FindByID`) implementations. -/
theorem C5_save_then_find (repo : RepositorioUsuarioMem) (u : Usuario)
    (repoE : InMemoryUserRepo) (uE : User) :
    ((repo.Guardar u).fst).BuscarPorID u.ID = Except.ok u
    ∧ ((repoE.Save uE).fst).FindByID uE.ID = Except.ok uE := by
  constructor
  · simp [RepositorioUsuarioMem.Guardar, RepositorioUsuarioMem.BuscarPorID,
      mapLookup_mapInsert_self]
  · simp [InMemoryUserRepo.Save, InMemoryUserRepo.FindByID, mapLookup_mapInsert_self]

/-- Claim C6: on both the owner and the task repository, `findById` fails
with the not-found error exactly when no stored entry has the queried
identifier, and when the backing map holds an entry for the identifier it
returns exactly that stored entity; on the fresh empty stores every lookup
fails with the not-found error. -/
theorem C6_find_by_id_contract (repoU : RepositorioUsuarioMem) (repoT : RepositorioTareaMem)
    (id : String) :
    (repoU.BuscarPorID id = Except.error "usuario no encontrado"
        ↔ ∀ u : Usuario, (id, u) ∉ repoU.usuarios)
    ∧ (∀ u : Usuario, mapLookup id repoU.usuarios = some u →
        (id, u) ∈ repoU.usuarios ∧ repoU.BuscarPorID id = Except.ok u)
    ∧ (repoT.BuscarPorID id = Except.error "tarea no encontrada"
        ↔ ∀ t : Tarea, (id, t) ∉ repoT.tareas)
    ∧ (∀ t : Tarea, mapLookup id repoT.tareas = some t →
        (id, t) ∈ repoT.tareas ∧ repoT.BuscarPorID id = Except.ok t)
    ∧ NuevoRepositorioUsuarioMem.BuscarPorID id = Except.error "usuario no encontrado"
    ∧ NuevoRepositorioTareaMem.BuscarPorID id = Except.error "tarea no encontrada" := by
  refine ⟨?_, ?_, ?_, ?_, rfl, rfl⟩
  · rw [← mapLookup_eq_none_iff]
    cases hl : mapLookup id repoU.usuarios with
    | none => simp [RepositorioUsuarioMem.BuscarPorID, hl]
    | some u => simp [RepositorioUsuarioMem.BuscarPorID, hl]
  · intro u hu
    exact ⟨mapLookup_mem _ _ _ hu, by simp [RepositorioUsuarioMem.BuscarPorID, hu]⟩
  · rw [← mapLookup_eq_none_iff]
    cases hl : mapLookup id repoT.tareas with
    | none => simp [RepositorioTareaMem.BuscarPorID, hl]
    | some t => simp [RepositorioTareaMem.BuscarPorID, hl]
  · intro t ht
    exact ⟨mapLookup_mem _ _ _ ht, by simp [RepositorioTareaMem.BuscarPorID, ht]⟩

/-- Claim C6 witness: concrete instances — a populated owner store returns the
stored owner, and the empty task store fails with the not-found error. -/
theorem C6_find_by_id_contract_witness :
    (("u1", (⟨"u1", "Alice", "admin"⟩ : Usuario)) ∈ [("u1", (⟨"u1", "Alice", "admin"⟩ : Usuario))]
      ∧ (RepositorioUsuarioMem.mk [("u1", ⟨"u1", "Alice", "admin"⟩)]).BuscarPorID "u1"
          = Except.ok ⟨"u1", "Alice", "admin"⟩)
    ∧ NuevoRepositorioTareaMem.BuscarPorID "t1" = Except.error "tarea no encontrada" :=
  ⟨(C6_find_by_id_contract ⟨[("u1", ⟨"u1", "Alice", "admin"⟩)]⟩ NuevoRepositorioTareaMem
      "u1").2.1 ⟨"u1", "Alice", "admin"⟩ rfl,
   (C6_find_by_id_contract ⟨[("u1", ⟨"u1", "Alice", "admin"⟩)]⟩ NuevoRepositorioTareaMem
      "t1").2.2.2.2.2⟩

/-- Claim C7: creating a task, for any owner identifier and title, succeeds
and yields a task with that owner identifier, that title and the pending
status, persisted in the task store under its identifier; the use case in
both implementations receives only the task repository, so no owner store is
consulted. -/
theorem C7_create_task_unchecked (env : ProcIdentity) (repo : RepositorioTareaMem)
    (usuarioID titulo : String) (repoE : InMemoryTaskRepo) (userID title : String) :
    (CrearTarea env repo usuarioID titulo).snd
      = Except.ok { ID := generarID env, UsuarioID := usuarioID, Titulo := titulo, Estado := Pendiente }
    ∧ mapLookup (generarID env) ((CrearTarea env repo usuarioID titulo).fst).tareas
      = some { ID := generarID env, UsuarioID := usuarioID, Titulo := titulo, Estado := Pendiente }
    ∧ (CreateTask env repoE userID title).snd
      = Except.ok { ID := generateID env, UserID := userID, Title := title, Status := TaskPending }
    ∧ mapLookup (generateID env) ((CreateTask env repoE userID title).fst).tasks
      = some { ID := generateID env, UserID := userID, Title := title, Status := TaskPending } := by
  refine ⟨rfl, ?_, rfl, ?_⟩
  · simp [CrearTarea, RepositorioTareaMem.Guardar, mapLookup_mapInsert_self]
  · simp [CreateTask, InMemoryTaskRepo.Save, mapLookup_mapInsert_self]

/-- Claim C2: if the store holds a task under identifier `tid` whose own
identifier field is `tid`, then completing it succeeds, a subsequent lookup
returns the task with completed status, and running the complete-task use
case a second time succeeds and leaves the store state literally identical;
stated for both `FinalizarTarea` and `CompleteTask`. -/
theorem C2_complete_task_idempotent (repo : RepositorioTareaMem) (tid : String) (tk : Tarea)
    (hlook : mapLookup tid repo.tareas = some tk) (hid : tk.ID = tid)
    (repoE : InMemoryTaskRepo) (tidE : String) (tkE : Task)
    (hlookE : mapLookup tidE repoE.tasks = some tkE) (hidE : tkE.ID = tidE) :
    (FinalizarTarea repo tid).snd = Except.ok ()
    ∧ (FinalizarTarea repo tid).fst.BuscarPorID tid = Except.ok { tk with Estado := Finalizada }
    ∧ FinalizarTarea (FinalizarTarea repo tid).fst tid = ((FinalizarTarea repo tid).fst, Except.ok ())
    ∧ (CompleteTask repoE tidE).snd = Except.ok ()
    ∧ (CompleteTask repoE tidE).fst.FindByID tidE = Except.ok { tkE with Status := TaskCompleted }
    ∧ CompleteTask (CompleteTask repoE tidE).fst tidE = ((CompleteTask repoE tidE).fst, Except.ok ()) := by
  subst hid
  subst hidE
  have h1 : repo.BuscarPorID tk.ID = Except.ok tk := by
    simp [RepositorioTareaMem.BuscarPorID, hlook]
  have h3 : FinalizarTarea repo tk.ID
      = ({ tareas := mapInsert tk.ID { tk with Estado := Finalizada } repo.tareas }, Except.ok ()) := by
    simp [FinalizarTarea, h1, RepositorioTareaMem.Actualizar, hlook]
  have h4 : mapLookup tk.ID (mapInsert tk.ID ({ tk with Estado := Finalizada }) repo.tareas)
      = some { tk with Estado := Finalizada } := mapLookup_mapInsert_self _ _ _
  have h5 : FinalizarTarea
        ({ tareas := mapInsert tk.ID { tk with Estado := Finalizada } repo.tareas } : RepositorioTareaMem)
        tk.ID
      = (({ tareas := mapInsert tk.ID { tk with Estado := Finalizada } repo.tareas } : RepositorioTareaMem),
          Except.ok ()) := by
    simp [FinalizarTarea, RepositorioTareaMem.BuscarPorID, h4, RepositorioTareaMem.Actualizar,
      mapInsert_mapInsert_self]
  have h1E : repoE.FindByID tkE.ID = Except.ok tkE := by
    simp [InMemoryTaskRepo.FindByID, hlookE]
  have h3E : CompleteTask repoE tkE.ID
      = ({ tasks := mapInsert tkE.ID { tkE with Status := TaskCompleted } repoE.tasks }, Except.ok ()) := by
    simp [CompleteTask, h1E, InMemoryTaskRepo.Update, hlookE]
  have h4E : mapLookup tkE.ID (mapInsert tkE.ID ({ tkE with Status := TaskCompleted }) repoE.tasks)
      = some { tkE with Status := TaskCompleted } := mapLookup_mapInsert_self _ _ _
  have h5E : CompleteTask
        ({ tasks := mapInsert tkE.ID { tkE with Status := TaskCompleted } repoE.tasks } : InMemoryTaskRepo)
        tkE.ID
      = (({ tasks := mapInsert tkE.ID { tkE with Status := TaskCompleted } repoE.tasks } : InMemoryTaskRepo),
          Except.ok ()) := by
    simp [CompleteTask, InMemoryTaskRepo.FindByID, h4E, InMemoryTaskRepo.Update,
      mapInsert_mapInsert_self]
  refine ⟨by simp [h3], ?_, by simp [h3, h5], by simp [h3E], ?_, by simp [h3E, h5E]⟩
  · rw [h3]
    simp [RepositorioTareaMem.BuscarPorID, h4]
  · rw [h3E]
    simp [InMemoryTaskRepo.FindByID, h4E]

/-- Claim C2 witness: a concrete one-task store in each implementation;
completing the task makes a subsequent lookup return it as completed. -/
theorem C2_complete_task_idempotent_witness :
    (FinalizarTarea ⟨[("7", ⟨"7", "u", "milk", Pendiente⟩)]⟩ "7").fst.BuscarPorID "7"
      = Except.ok ⟨"7", "u", "milk", Finalizada⟩
    ∧ (CompleteTask ⟨[("7", ⟨"7", "u", "milk", TaskPending⟩)]⟩ "7").fst.FindByID "7"
      = Except.ok ⟨"7", "u", "milk", TaskCompleted⟩ :=
  ⟨(C2_complete_task_idempotent ⟨[("7", ⟨"7", "u", "milk", Pendiente⟩)]⟩ "7"
      ⟨"7", "u", "milk", Pendiente⟩ (by simp [mapLookup]) rfl
      ⟨[("7", ⟨"7", "u", "milk", TaskPending⟩)]⟩ "7"
      ⟨"7", "u", "milk", TaskPending⟩ (by simp [mapLookup]) rfl).2.1,
   (C2_complete_task_idempotent ⟨[("7", ⟨"7", "u", "milk", Pendiente⟩)]⟩ "7"
      ⟨"7", "u", "milk", Pendiente⟩ (by simp [mapLookup]) rfl
      ⟨[("7", ⟨"7", "u", "milk", TaskPending⟩)]⟩ "7"
      ⟨"7", "u", "milk", TaskPending⟩ (by simp [mapLookup]) rfl).2.2.2.2.1⟩

/-- Claim C3: in both implementations, update fails with the not-found error
exactly when no stored entry shares the task's identifier, and in that case
the store is returned unchanged; when some entry shares the identifier,
update succeeds and the entry under that identifier becomes exactly the
given task. -/
theorem C3_update_contract (repo : RepositorioTareaMem) (t : Tarea)
    (repoE : InMemoryTaskRepo) (tE : Task) :
    ((repo.Actualizar t).snd = Except.error "tarea no encontrada"
        ↔ ∀ v : Tarea, (t.ID, v) ∉ repo.tareas)
    ∧ ((∀ v : Tarea, (t.ID, v) ∉ repo.tareas) → (repo.Actualizar t).fst = repo)
    ∧ ((∃ v : Tarea, (t.ID, v) ∈ repo.tareas) →
        (repo.Actualizar t).snd = Except.ok ()
        ∧ mapLookup t.ID ((repo.Actualizar t).fst).tareas = some t)
    ∧ ((repoE.Update tE).snd = Except.error "tarea no encontrada"
        ↔ ∀ v : Task, (tE.ID, v) ∉ repoE.tasks)
    ∧ ((∀ v : Task, (tE.ID, v) ∉ repoE.tasks) → (repoE.Update tE).fst = repoE)
    ∧ ((∃ v : Task, (tE.ID, v) ∈ repoE.tasks) →
        (repoE.Update tE).snd = Except.ok ()
        ∧ mapLookup tE.ID ((repoE.Update tE).fst).tasks = some tE) := by
  refine ⟨?_, ?_, ?_, ?_, ?_, ?_⟩
  · rw [← mapLookup_eq_none_iff]
    cases hl : mapLookup t.ID repo.tareas with
    | none => simp [RepositorioTareaMem.Actualizar, hl]
    | some v => simp [RepositorioTareaMem.Actualizar, hl]
  · intro hall
    have hl : mapLookup t.ID repo.tareas = none := (mapLookup_eq_none_iff _ _).mpr hall
    simp [RepositorioTareaMem.Actualizar, hl]
  · rintro ⟨v, hv⟩
    cases hl : mapLookup t.ID repo.tareas with
    | none => exact absurd hv ((mapLookup_eq_none_iff _ _).mp hl v)
    | some w => simp [RepositorioTareaMem.Actualizar, hl, mapLookup_mapInsert_self]
  · rw [← mapLookup_eq_none_iff]
    cases hl : mapLookup tE.ID repoE.tasks with
    | none => simp [InMemoryTaskRepo.Update, hl]
    | some v => simp [InMemoryTaskRepo.Update, hl]
  · intro hall
    have hl : mapLookup tE.ID repoE.tasks = none := (mapLookup_eq_none_iff _ _).mpr hall
    simp [InMemoryTaskRepo.Update, hl]
  · rintro ⟨v, hv⟩
    cases hl : mapLookup tE.ID repoE.tasks with
    | none => exact absurd hv ((mapLookup_eq_none_iff _ _).mp hl v)
    | some w => simp [InMemoryTaskRepo.Update, hl, mapLookup_mapInsert_self]

/-- Claim C3 witness: updating against the empty store leaves it unchanged,
and updating an existing entry replaces it entirely with the given task. -/
theorem C3_update_contract_witness :
    (NuevoRepositorioTareaMem.Actualizar ⟨"1", "u", "x", Pendiente⟩).fst = NuevoRepositorioTareaMem
    ∧ mapLookup "1"
        (((RepositorioTareaMem.mk [("1", ⟨"1", "u", "y", Finalizada⟩)]).Actualizar
          ⟨"1", "u", "x", Pendiente⟩).fst).tareas
      = some ⟨"1", "u", "x", Pendiente⟩ :=
  ⟨(C3_update_contract NuevoRepositorioTareaMem ⟨"1", "u", "x", Pendiente⟩
      NewInMemoryTaskRepo ⟨"1", "u", "x", TaskPending⟩).2.1
      (fun v => List.not_mem_nil _),
   ((C3_update_contract ⟨[("1", ⟨"1", "u", "y", Finalizada⟩)]⟩ ⟨"1", "u", "x", Pendiente⟩
      NewInMemoryTaskRepo ⟨"1", "u", "x", TaskPending⟩).2.2.1
      ⟨⟨"1", "u", "y", Finalizada⟩, by simp⟩).2⟩

/-- Claim C10: saving or updating an entity leaves every entry stored under a
different identifier unchanged — looking up any other key gives the same
result (same entity or same not-found error) before and after, for the task
repository's `Guardar` and `Actualizar` and the owner repository's `Guardar`. -/
theorem C10_save_update_frame (repoT : RepositorioTareaMem) (t : Tarea)
    (repoU : RepositorioUsuarioMem) (u : Usuario) (k : String)
    (ht : k ≠ t.ID) (hu : k ≠ u.ID) :
    ((repoT.Guardar t).fst).BuscarPorID k = repoT.BuscarPorID k
    ∧ ((repoT.Actualizar t).fst).BuscarPorID k = repoT.BuscarPorID k
    ∧ ((repoU.Guardar u).fst).BuscarPorID k = repoU.BuscarPorID k := by
  refine ⟨?_, ?_, ?_⟩
  · simp [RepositorioTareaMem.Guardar, RepositorioTareaMem.BuscarPorID,
      mapLookup_mapInsert_ne _ _ _ _ ht]
  · cases hl : mapLookup t.ID repoT.tareas with
    | none => simp [RepositorioTareaMem.Actualizar, hl]
    | some v =>
      simp [RepositorioTareaMem.Actualizar, hl, RepositorioTareaMem.BuscarPorID,
        mapLookup_mapInsert_ne _ _ _ _ ht]
  · simp [RepositorioUsuarioMem.Guardar, RepositorioUsuarioMem.BuscarPorID,
      mapLookup_mapInsert_ne _ _ _ _ hu]

/-- Claim C10 witness: concrete stores — saving task "1" and owner "a" does
not disturb the entries under keys "2" and "b". -/
theorem C10_save_update_frame_witness :
    ((RepositorioTareaMem.mk [("2", ⟨"2", "u", "x", Pendiente⟩)]).Guardar
        ⟨"1", "u", "y", Pendiente⟩).fst.BuscarPorID "2"
      = (RepositorioTareaMem.mk [("2", ⟨"2", "u", "x", Pendiente⟩)]).BuscarPorID "2"
    ∧ ((RepositorioUsuarioMem.mk [("b", ⟨"b", "Bob", "user"⟩)]).Guardar
        ⟨"a", "Ann", "admin"⟩).fst.BuscarPorID "b"
      = (RepositorioUsuarioMem.mk [("b", ⟨"b", "Bob", "user"⟩)]).BuscarPorID "b" :=
  ⟨(C10_save_update_frame ⟨[("2", ⟨"2", "u", "x", Pendiente⟩)]⟩ ⟨"1", "u", "y", Pendiente⟩
      ⟨[("b", ⟨"b", "Bob", "user"⟩)]⟩ ⟨"a", "Ann", "admin"⟩ "2"
      (by decide) (by decide)).1,
   (C10_save_update_frame ⟨[("2", ⟨"2", "u", "x", Pendiente⟩)]⟩ ⟨"1", "u", "y", Pendiente⟩
      ⟨[("b", ⟨"b", "Bob", "user"⟩)]⟩ ⟨"a", "Ann", "admin"⟩ "b"
      (by decide) (by decide)).2.2⟩

/-- Claim C8 counterexample: with process identity (1,2,3,4,5), name "Alice"
and role "admin", the Spanish `CrearUsuario` stores role tag "admin" while
the English `CreateUser` — which takes no role argument — stores the role
tag "", so the two implementations do not produce owners with equal role
tags. -/
theorem C8_role_tag_counterexample :
    (CrearUsuario ⟨1, 2, 3, 4, 5⟩ NuevoRepositorioUsuarioMem "Alice" "admin").snd
      = Except.ok { ID := "15", Nombre := "Alice", Rol := "admin" }
    ∧ (CreateUser ⟨1, 2, 3, 4, 5⟩ NewInMemoryUserRepo "Alice").snd
      = Except.ok { ID := "15", Name := "Alice", Rol := "" }
    ∧ ("admin" : String) ≠ "" := by
  refine ⟨rfl, rfl, by decide⟩

/-- Claim C8 amended: the two create-owner use cases agree on identifier and
display name for every input, and the generated identifiers coincide; but
`CreateUser` takes no role argument and always records the empty role tag,
so role tags and repository states coincide exactly when the role passed to
`CrearUsuario` is the empty string. -/
theorem C8_create_owner_correspondence (env : ProcIdentity) (nombre rol : String) :
    (CrearUsuario env NuevoRepositorioUsuarioMem nombre rol).snd
      = Except.ok { ID := generarID env, Nombre := nombre, Rol := rol }
    ∧ (CreateUser env NewInMemoryUserRepo nombre).snd
      = Except.ok { ID := generateID env, Name := nombre, Rol := "" }
    ∧ generarID env = generateID env
    ∧ (rol = "" →
        (CrearUsuario env NuevoRepositorioUsuarioMem nombre rol).fst.usuarios.map
            (fun p => (p.fst, p.snd.ID, p.snd.Nombre, p.snd.Rol))
          = (CreateUser env NewInMemoryUserRepo nombre).fst.users.map
            (fun p => (p.fst, p.snd.ID, p.snd.Name, p.snd.Rol))) := by
  refine ⟨rfl, rfl, rfl, ?_⟩
  intro h
  subst h
  rfl

/-- Claim C8 amended witness: with an empty role the two implementations
leave their stores in corresponding states. -/
theorem C8_create_owner_correspondence_witness :
    (CrearUsuario ⟨1, 2, 3, 4, 5⟩ NuevoRepositorioUsuarioMem "Alice" "").fst.usuarios.map
        (fun p => (p.fst, p.snd.ID, p.snd.Nombre, p.snd.Rol))
      = (CreateUser ⟨1, 2, 3, 4, 5⟩ NewInMemoryUserRepo "Alice").fst.users.map
        (fun p => (p.fst, p.snd.ID, p.snd.Name, p.snd.Rol)) :=
  (C8_create_owner_correspondence ⟨1, 2, 3, 4, 5⟩ "Alice" "").2.2.2 rfl

/-- Claim C9 counterexample: the trimming helper is not defined on the empty
string (the Go slice `[]byte(s)[:len(s)-1]` panics there), and on a line
without a trailing newline it still removes the final character rather than
leaving the line intact. -/
theorem C9_trim_counterexample :
    limpiar [] = none
    ∧ limpiar ['A', 'B'] = some ['A']
    ∧ (['A'] : List Char) ≠ ['A', 'B'] := by
  refine ⟨rfl, rfl, by decide⟩

/-- Claim C9 amended: on every nonempty input line the trimming helpers are
defined and return the line with its final character removed — in particular
they strip the trailing newline exactly when the line ends in one — while on
the empty string both are undefined (the slice expression panics). -/
theorem C9_trim_drops_final_char (s : List Char) (c : Char) :
    limpiar (s ++ [c]) = some s
    ∧ trim (s ++ [c]) = some s
    ∧ limpiar [] = none
    ∧ trim [] = none := by
  have hdrop : (s ++ [c]).dropLast = s := by
    simp
  refine ⟨?_, ?_, rfl, rfl⟩
  · simp [limpiar, hdrop]
  · simp [trim, hdrop]

end GOdelivery
